import Mathlib

/-!
Verification of the EphemerisDecoder astrology-calculation core.

The Python sources `src/services/astrology_calculations.py` and
`src/utils/zodiac.py` are shallowly embedded below.  Longitudes and angles
are modelled as rationals (`ℚ`); Python's `%` on numbers (result carries the
sign of the divisor) is modelled by `pymod`, and Python's `int()` truncation
toward zero by `pyInt`.  Python dicts of planets are modelled as association
lists `List (String × ℚ)` from planet name to ecliptic longitude, keeping
the dict's (insertion-ordered) iteration semantics.
-/

namespace EphemerisDecoder

/-- Python `x % m` on numbers: the representative of `x` modulo `m` lying in
`[0, m)` when `m > 0` (result has the sign of the divisor). -/
def pymod (x m : ℚ) : ℚ := x - m * ⌊x / m⌋

/-- Python `int()` applied to a number: truncation toward zero. -/
def pyInt (q : ℚ) : ℤ := if 0 ≤ q then ⌊q⌋ else ⌈q⌉

lemma pymod_def (x m : ℚ) : pymod x m = x - m * ⌊x / m⌋ := rfl

lemma pymod_eq_mul_fract (x m : ℚ) (hm : m ≠ 0) :
    pymod x m = m * Int.fract (x / m) := by
  unfold pymod Int.fract
  field_simp

lemma pymod_nonneg (x m : ℚ) (hm : 0 < m) : 0 ≤ pymod x m := by
  rw [pymod_eq_mul_fract x m hm.ne']
  exact mul_nonneg hm.le (Int.fract_nonneg _)

lemma pymod_lt (x m : ℚ) (hm : 0 < m) : pymod x m < m := by
  rw [pymod_eq_mul_fract x m hm.ne']
  calc m * Int.fract (x / m) < m * 1 :=
        (mul_lt_mul_left hm).mpr (Int.fract_lt_one _)
    _ = m := mul_one m

lemma pymod_eq_self {x m : ℚ} (hm : 0 < m) (h0 : 0 ≤ x) (h1 : x < m) :
    pymod x m = x := by
  have hfloor : ⌊x / m⌋ = 0 := by
    rw [Int.floor_eq_zero_iff]
    constructor
    · exact div_nonneg h0 hm.le
    · rw [div_lt_one hm]; exact h1
  simp [pymod, hfloor]

/-! ### src/utils/zodiac.py -/

/-- `ZODIAC_SIGNS` from `src/utils/zodiac.py`. -/
def ZODIAC_SIGNS : List String :=
  ["Овен", "Телец", "Близнецы", "Рак", "Лев", "Дева",
   "Весы", "Скорпион", "Стрелец", "Козерог", "Водолей", "Рыбы"]

/-- `ZODIAC_DEGREES` from `src/utils/zodiac.py`. -/
def ZODIAC_DEGREES : ℚ := 30

/-- `degrees_to_sign_and_degrees` from `src/utils/zodiac.py`: normalize the
longitude into `[0, 360)`, take the 30°-wide sign it falls in, and return the
sign name together with the degrees inside the sign. -/
def degrees_to_sign_and_degrees (longitude : ℚ) : String × ℚ :=
  let longitude := pymod longitude 360
  let sign_index := ⌊longitude / ZODIAC_DEGREES⌋
  let sign_name := ZODIAC_SIGNS.getD sign_index.toNat ""
  let degrees_in_sign := pymod longitude ZODIAC_DEGREES
  (sign_name, degrees_in_sign)

/-- `normalize_angle` from `src/utils/zodiac.py`. -/
def normalize_angle (angle : ℚ) : ℚ := pymod angle 360

/-- `calculate_orb` from `src/utils/zodiac.py`:
`diff = abs(angle1 - angle2); return min(diff, 360 - diff)`. -/
def calculate_orb (angle1 angle2 : ℚ) : ℚ :=
  let diff := |angle1 - angle2|
  min diff (360 - diff)

/-! ### src/services/astrology_calculations.py — AspectCalculator -/

/-- One entry of `AspectCalculator.MAJOR_ASPECTS` / `MINOR_ASPECTS`:
an aspect definition with exact angle, orb (tolerance), colour and style. -/
structure AspectDef where
  name : String
  angle : ℚ
  orb : ℚ
  color : String
  style : String
deriving DecidableEq, Repr

/-- `AspectCalculator.MAJOR_ASPECTS`, in Python dict insertion order. -/
def MAJOR_ASPECTS : List AspectDef :=
  [⟨"Conjunction", 0, 8, "#FF0000", "solid"⟩,
   ⟨"Opposition", 180, 8, "#FF0000", "solid"⟩,
   ⟨"Trine", 120, 8, "#0000FF", "solid"⟩,
   ⟨"Square", 90, 8, "#FF0000", "solid"⟩,
   ⟨"Sextile", 60, 6, "#0000FF", "dashed"⟩]

/-- `AspectCalculator.MINOR_ASPECTS`, in Python dict insertion order. -/
def MINOR_ASPECTS : List AspectDef :=
  [⟨"Quincunx", 150, 3, "#808080", "dotted"⟩,
   ⟨"Semisextile", 30, 3, "#808080", "dotted"⟩,
   ⟨"Quintile", 72, 2, "#800080", "dotted"⟩,
   ⟨"Biquintile", 144, 2, "#800080", "dotted"⟩,
   ⟨"Sesquiquadrate", 135, 3, "#FF8C00", "dotted"⟩]

/-- The dict returned by `AspectCalculator._determine_aspect` on a match. -/
structure AspectInfo where
  aspect : String
  orb : ℚ
  is_major : Bool
  color : String
  style : String
deriving DecidableEq, Repr

/-- One pass of the `for aspect_name, aspect_data in ….items()` loop inside
`_determine_aspect`: return the first table entry whose tolerance admits
`angle_diff`. -/
def scanAspectTable (table : List AspectDef) (angle_diff : ℚ)
    (is_major : Bool) : Option AspectInfo :=
  match table with
  | [] => none
  | a :: rest =>
    if |angle_diff - a.angle| ≤ a.orb then
      some ⟨a.name, |angle_diff - a.angle|, is_major, a.color, a.style⟩
    else scanAspectTable rest angle_diff is_major

/-- `AspectCalculator._determine_aspect`: scan the major table first, then
the minor table, returning the first matching definition (or none). -/
def determine_aspect (angle_diff : ℚ) : Option AspectInfo :=
  match scanAspectTable MAJOR_ASPECTS angle_diff true with
  | some r => some r
  | none => scanAspectTable MINOR_ASPECTS angle_diff false

/-- The inline separation computation used by `calculate_aspects`,
`calculate_transits` and `calculate_synastry`:
`diff = abs(a1 - a2); if diff > 180: diff = 360 - diff`. -/
def angularDiff (angle1 angle2 : ℚ) : ℚ :=
  let diff := |angle1 - angle2|
  if diff > 180 then 360 - diff else diff

/-- One entry of the list returned by `AspectCalculator.calculate_aspects`
(presentational `description` field omitted). -/
structure Aspect where
  planet1 : String
  planet2 : String
  aspect : String
  orb : ℚ
  is_major : Bool
  color : String
  style : String
  angle_diff : ℚ
deriving DecidableEq, Repr

/-- Body of the double loop in `calculate_aspects` for one pair. -/
def mkAspect (planet1_name : String) (angle1 : ℚ) (planet2_name : String)
    (angle2 : ℚ) : Option Aspect :=
  let diff := angularDiff angle1 angle2
  (determine_aspect diff).map fun info =>
    ⟨planet1_name, planet2_name, info.aspect, info.orb, info.is_major,
     info.color, info.style, diff⟩

/-- The `for i, planet1_name in enumerate(planet_names):
for planet2_name in planet_names[i+1:]:` double loop of
`calculate_aspects`, collecting matches in iteration order. -/
def pairAspects : List (String × ℚ) → List Aspect
  | [] => []
  | (n1, l1) :: rest =>
    (rest.filterMap fun p => mkAspect n1 l1 p.1 p.2) ++ pairAspects rest

/-- Ordering used by the Python `sorted(…, key=lambda x: x["orb"])` calls. -/
def orbLE (x y : Aspect) : Prop := x.orb ≤ y.orb

instance : DecidableRel orbLE := fun x y => inferInstanceAs (Decidable (x.orb ≤ y.orb))

instance : IsTotal Aspect orbLE := ⟨fun x y => le_total x.orb y.orb⟩

instance : IsTrans Aspect orbLE := ⟨fun _ _ _ => le_trans⟩

/-- `AspectCalculator.calculate_aspects`: all aspects between the pairs of a
planet set, sorted ascending by orb (Python's `sorted` is a stable sort; a
stable insertion sort models it). -/
def calculate_aspects (planets_data : List (String × ℚ)) : List Aspect :=
  List.insertionSort orbLE (pairAspects planets_data)

/-- One entry of the list returned by `TransitCalculator.calculate_transits`
(the pass-through `transit_date` and the `description` omitted). -/
structure Transit where
  transit_planet : String
  natal_planet : String
  aspect : String
  orb : ℚ
  is_major : Bool
  color : String
  style : String
  transit_longitude : ℚ
  natal_longitude : ℚ
  angle_diff : ℚ
deriving DecidableEq, Repr

/-- Body of the double loop in `calculate_transits` for one pair. -/
def mkTransit (transit_planet_name : String) (transit_longitude : ℚ)
    (natal_planet_name : String) (natal_longitude : ℚ) : Option Transit :=
  let diff := angularDiff transit_longitude natal_longitude
  (determine_aspect diff).map fun info =>
    ⟨transit_planet_name, natal_planet_name, info.aspect, info.orb,
     info.is_major, info.color, info.style, transit_longitude,
     natal_longitude, diff⟩

/-- Ordering for transits by orb. -/
def orbLE' (x y : Transit) : Prop := x.orb ≤ y.orb

instance : DecidableRel orbLE' := fun x y => inferInstanceAs (Decidable (x.orb ≤ y.orb))

instance : IsTotal Transit orbLE' := ⟨fun x y => le_total x.orb y.orb⟩

instance : IsTrans Transit orbLE' := ⟨fun _ _ _ => le_trans⟩

/-- `TransitCalculator.calculate_transits`: every (transiting, natal) pair is
classified, and the matches are sorted ascending by orb. -/
def calculate_transits (natal_planets transit_planets : List (String × ℚ)) :
    List Transit :=
  List.insertionSort orbLE'
    (transit_planets.flatMap fun t =>
      natal_planets.filterMap fun n => mkTransit t.1 t.2 n.1 n.2)

/-! ### TransitCalculator: progressions and sign conversion -/

/-- The English sign list inside `TransitCalculator._longitude_to_sign`. -/
def signsEn : List String :=
  ["Aries", "Taurus", "Gemini", "Cancer", "Leo", "Virgo",
   "Libra", "Scorpio", "Sagittarius", "Capricorn", "Aquarius", "Pisces"]

/-- `TransitCalculator._longitude_to_sign`:
`sign_index = int(longitude // 30); return signs[sign_index % 12]`
(Python `//` on numbers is floor division, `%` on ints is non-negative for a
positive modulus, so the lookup index is always in range). -/
def longitude_to_sign (longitude : ℚ) : String :=
  let sign_index : ℤ := ⌊longitude / 30⌋
  signsEn.getD (sign_index % 12).toNat ""

/-- One entry of the list returned by
`TransitCalculator.calculate_progressions` (ISO date string omitted).
`days_since_birth` is the whole-day difference `(progression_date -
birth_date).days`, taken here as an integer input. -/
structure Progression where
  planet : String
  natal_longitude : ℚ
  progressed_longitude : ℚ
  progressed_sign : String
  days_since_birth : ℤ
deriving DecidableEq, Repr

/-- `TransitCalculator.calculate_progressions`: the Moon advances 1° per
elapsed day (normalized mod 360); every other planet keeps its natal
longitude unchanged. -/
def calculate_progressions (natal_planets : List (String × ℚ))
    (days_since_birth : ℤ) : List Progression :=
  natal_planets.map fun p =>
    let progressed_longitude :=
      if p.1 = "Moon" then pymod (p.2 + (days_since_birth : ℚ)) 360 else p.2
    ⟨p.1, p.2, progressed_longitude, longitude_to_sign progressed_longitude,
     days_since_birth⟩

/-! ### DirectionCalculator -/

/-- One entry of the list returned by
`DirectionCalculator.calculate_primary_directions` (ISO date string, the
rounded `years_since_birth` echo and `description` omitted). -/
structure Direction where
  planet : String
  natal_longitude : ℚ
  directed_longitude : ℚ
  directed_sign : String
deriving DecidableEq, Repr

/-- `DirectionCalculator.calculate_primary_directions`:
`years_since_birth = (direction_date - birth_date).days / 365.25`; every body
is advanced by that many degrees, normalized mod 360.  The whole-day
difference is the integer input `days_since_birth`; `365.25` is exactly
representable, so rational arithmetic matches the source. -/
def calculate_primary_directions (natal_planets : List (String × ℚ))
    (days_since_birth : ℤ) : List Direction :=
  let years_since_birth : ℚ := (days_since_birth : ℚ) / (1461 / 4)
  natal_planets.map fun p =>
    let directed_longitude := pymod (p.2 + years_since_birth) 360
    ⟨p.1, p.2, directed_longitude, longitude_to_sign directed_longitude⟩

/-! ### SynastryCalculator -/

/-- One entry of the `aspects` list built by
`SynastryCalculator.calculate_synastry` (`description` omitted). -/
structure SynAspect where
  person1_planet : String
  person2_planet : String
  aspect : String
  orb : ℚ
  is_major : Bool
  color : String
  style : String
deriving DecidableEq, Repr

/-- Body of the aspect double loop of `calculate_synastry` for one pair. -/
def mkSynAspect (planet1_name : String) (angle1 : ℚ) (planet2_name : String)
    (angle2 : ℚ) : Option SynAspect :=
  let diff := angularDiff angle1 angle2
  (determine_aspect diff).map fun info =>
    ⟨planet1_name, planet2_name, info.aspect, info.orb, info.is_major,
     info.color, info.style⟩

/-- The `aspects` list of `calculate_synastry`: every (person1 planet,
person2 planet) pair classified, appended in iteration order.  The source
never sorts this list. -/
def synastry_aspects (person1_planets person2_planets : List (String × ℚ)) :
    List SynAspect :=
  person1_planets.flatMap fun p1 =>
    person2_planets.filterMap fun p2 => mkSynAspect p1.1 p1.2 p2.1 p2.2

/-- The composite-midpoint computation inside `calculate_synastry`:
if the naive difference exceeds 180°, the smaller longitude is rotated by
+360°, then the average is reduced mod 360. -/
def composite_longitude (angle1 angle2 : ℚ) : ℚ :=
  let p : ℚ × ℚ :=
    if |angle1 - angle2| > 180 then
      if angle1 < angle2 then (angle1 + 360, angle2) else (angle1, angle2 + 360)
    else (angle1, angle2)
  pymod ((p.1 + p.2) / 2) 360

/-- One entry of the `composite_points` list of `calculate_synastry`. -/
structure CompositePoint where
  planet : String
  person1_longitude : ℚ
  person2_longitude : ℚ
  composite_longitude : ℚ
  composite_sign : String
deriving DecidableEq, Repr

/-- The composite-point loop of `calculate_synastry`: for each planet of
person1 also present in person2, the wrap-corrected circular midpoint. -/
def composite_points (person1_planets person2_planets : List (String × ℚ)) :
    List CompositePoint :=
  person1_planets.filterMap fun p1 =>
    (person2_planets.lookup p1.1).map fun angle2 =>
      let c := composite_longitude p1.2 angle2
      ⟨p1.1, p1.2, angle2, c, longitude_to_sign c⟩

/-- The per-aspect weight accumulated by
`SynastryCalculator._calculate_compatibility_score`. -/
def aspectWeight (a : SynAspect) : ℤ :=
  if a.is_major then
    if a.aspect = "Trine" ∨ a.aspect = "Sextile" then 3
    else if a.aspect = "Conjunction" then 2
    else if a.aspect = "Square" ∨ a.aspect = "Opposition" then 1
    else 0
  else 1

/-- `SynastryCalculator._calculate_compatibility_score`: sum the weights,
normalize by `3 * len(aspects)` scaled to 100 with `int()` truncation
(skipped when the list is empty), and clamp to `[0, 100]`. -/
def compatibility_score (aspects : List SynAspect) : ℤ :=
  let score : ℤ := (aspects.map aspectWeight).sum
  let max_possible_score : ℤ := aspects.length * 3
  let score : ℤ :=
    if max_possible_score > 0 then
      pyInt (((score : ℚ) / (max_possible_score : ℚ)) * 100)
    else score
  min 100 (max 0 score)

/-- The full result of `SynastryCalculator.calculate_synastry`. -/
structure Synastry where
  aspects : List SynAspect
  composite_points : List CompositePoint
  compatibility_score : ℤ
deriving DecidableEq, Repr

/-- `SynastryCalculator.calculate_synastry`. -/
def calculate_synastry (person1_planets person2_planets : List (String × ℚ)) :
    Synastry :=
  ⟨synastry_aspects person1_planets person2_planets,
   composite_points person1_planets person2_planets,
   compatibility_score (synastry_aspects person1_planets person2_planets)⟩

/-! ### ArabicPartsCalculator -/

/-- One value of the dict returned by
`ArabicPartsCalculator.calculate_arabic_parts` (Russian `description`
omitted). -/
structure ArabicPart where
  longitude : ℚ
  sign : String
  formula : String
deriving DecidableEq, Repr

/-- `ArabicPartsCalculator.calculate_arabic_parts`: Part of Fortune and Part
of Spirit are emitted only when both Sun and Moon are present, Part of
Marriage only when both Venus and Saturn are present; a part whose inputs
are missing is silently omitted.  The result dict is modelled as an
association list in insertion order. -/
def calculate_arabic_parts (natal_planets : List (String × ℚ))
    (ascendant : ℚ) : List (String × ArabicPart) :=
  (match natal_planets.lookup "Sun", natal_planets.lookup "Moon" with
   | some sun_long, some moon_long =>
     let part_of_fortune := pymod (ascendant + (moon_long - sun_long)) 360
     [("Part_of_Fortune",
       ⟨part_of_fortune, longitude_to_sign part_of_fortune,
        "Asc + (Moon - Sun)"⟩)]
   | _, _ => []) ++
  (match natal_planets.lookup "Sun", natal_planets.lookup "Moon" with
   | some sun_long, some moon_long =>
     let part_of_spirit := pymod (ascendant + (sun_long - moon_long)) 360
     [("Part_of_Spirit",
       ⟨part_of_spirit, longitude_to_sign part_of_spirit,
        "Asc + (Sun - Moon)"⟩)]
   | _, _ => []) ++
  (match natal_planets.lookup "Venus", natal_planets.lookup "Saturn" with
   | some venus_long, some saturn_long =>
     let part_of_marriage := pymod (ascendant + (venus_long - saturn_long)) 360
     [("Part_of_Marriage",
       ⟨part_of_marriage, longitude_to_sign part_of_marriage,
        "Asc + (Venus - Saturn)"⟩)]
   | _, _ => [])

/-! ### AstrologicalUtilities.calculate_planetary_strength -/

/-- A `rulership` table value: either a single sign (a Python string, tested
with the substring-semantics `in`) or a list of two signs. -/
inductive Rulership where
  | single (sign : String)
  | dual (signs : List String)
deriving DecidableEq, Repr

/-- One value of the `dignities` dict in `calculate_planetary_strength`. -/
structure Dignity where
  exaltation : String
  fall : String
  rulership : Rulership
deriving DecidableEq, Repr

/-- The `dignities` dict in `calculate_planetary_strength`. -/
def dignities : List (String × Dignity) :=
  [("Sun", ⟨"Aries", "Libra", .single "Leo"⟩),
   ("Moon", ⟨"Taurus", "Scorpio", .single "Cancer"⟩),
   ("Mercury", ⟨"Virgo", "Pisces", .dual ["Gemini", "Virgo"]⟩),
   ("Venus", ⟨"Pisces", "Virgo", .dual ["Taurus", "Libra"]⟩),
   ("Mars", ⟨"Capricorn", "Cancer", .dual ["Aries", "Scorpio"]⟩),
   ("Jupiter", ⟨"Cancer", "Capricorn", .dual ["Sagittarius", "Pisces"]⟩),
   ("Saturn", ⟨"Libra", "Aries", .dual ["Capricorn", "Aquarius"]⟩)]

/-- Python's `sign in rulership_value`: substring test when the table value
is a single string, membership when it is a list. -/
def signInRulership (sign : String) : Rulership → Bool
  | .single s => decide (sign.toList <:+: s.toList)
  | .dual l => l.contains sign

/-- The mutable `strength` dict of `calculate_planetary_strength`. -/
structure Strength where
  dignity : String
  score : ℤ
  factors : List String
deriving DecidableEq, Repr

/-- One iteration of the aspect loop in `calculate_planetary_strength`. -/
def strengthAspectStep (st : Strength) (a : SynAspect) : Strength :=
  if a.is_major then
    if a.aspect = "Trine" ∨ a.aspect = "Sextile" then
      ⟨st.dignity, st.score + 5,
       st.factors ++ ["Гармоничный аспект: " ++ a.aspect]⟩
    else if a.aspect = "Square" ∨ a.aspect = "Opposition" then
      ⟨st.dignity, st.score - 3,
       st.factors ++ ["Напряжённый аспект: " ++ a.aspect]⟩
    else st
  else st

/-- The baseline initialisation plus the dignity block of
`calculate_planetary_strength`: start from `{"dignity": "neutral",
"score": 50, "factors": []}` and apply at most the first matching dignity
rule for the planet/sign pair. -/
def dignityStep (planet sign : String) : Strength :=
  let strength : Strength := ⟨"neutral", 50, []⟩
  match dignities.lookup planet with
  | none => strength
  | some planet_dignities =>
    if sign = planet_dignities.exaltation then
      ⟨"exaltation", strength.score + 20, strength.factors ++ ["Экзальтация"]⟩
    else if sign = planet_dignities.fall then
      ⟨"fall", strength.score - 20, strength.factors ++ ["Падение"]⟩
    else if signInRulership sign planet_dignities.rulership then
      ⟨"rulership", strength.score + 15, strength.factors ++ ["Управление"]⟩
    else strength

/-- The house-class block of `calculate_planetary_strength`. -/
def houseStep (house : ℤ) (strength : Strength) : Strength :=
  if house = 1 ∨ house = 4 ∨ house = 7 ∨ house = 10 then
    ⟨strength.dignity, strength.score + 10, strength.factors ++ ["Угловой дом"]⟩
  else if house = 2 ∨ house = 5 ∨ house = 8 ∨ house = 11 then
    ⟨strength.dignity, strength.score + 5, strength.factors ++ ["Успешный дом"]⟩
  else if house = 3 ∨ house = 6 ∨ house = 9 ∨ house = 12 then
    ⟨strength.dignity, strength.score - 5, strength.factors ++ ["Падающий дом"]⟩
  else strength

/-- `AstrologicalUtilities.calculate_planetary_strength`: baseline 50, a
first-matching dignity rule, a house-class modifier, per-aspect deltas, and
a final clamp of the score into `[0, 100]`. -/
def calculate_planetary_strength (planet sign : String) (house : ℤ)
    (aspects : List SynAspect) : Strength :=
  let strength : Strength := dignityStep planet sign
  let strength : Strength := houseStep house strength
  let strength : Strength := aspects.foldl strengthAspectStep strength
  ⟨strength.dignity, max 0 (min 100 strength.score), strength.factors⟩

/-! ### Definitions taken from the specification's words, for refinement
comparisons against the embedded source functions. -/

/-- The spec's `angularSeparation(a, b)`:
`d = |a - b| mod 360`; if `d > 180` return `360 - d`, else `d`. -/
def specAngularSeparation (a b : ℚ) : ℚ :=
  let d := pymod |a - b| 360
  if d > 180 then 360 - d else d

/-! ### Claim C1 -/

/-- Claim C1, as stated, is false: for inputs whose naive difference exceeds
360 the source primitive `calculate_orb` leaves `[0, 180]` and disagrees
with the spec formula.  At angles 0 and 720: `min(720, 360 - 720) = -360`,
while `|0 - 720| mod 360 = 0`. -/
theorem calculate_orb_out_of_range_at_720 :
    calculate_orb 0 720 = -360 ∧ specAngularSeparation 0 720 = 0 := by
  constructor
  · norm_num [calculate_orb]
  · norm_num [specAngularSeparation, pymod]

/-- Claim C1 (amended): the angular-separation primitive `calculate_orb` is
commutative for all inputs, and whenever the naive difference satisfies
`|a - b| ≤ 360` (in particular for all longitudes in `[0, 360)`) its result
lies in `[0, 180]`, agrees with the spec formula
`d = |a - b| mod 360; if d > 180 then 360 - d else d`, and agrees with the
inline separation computation used by the aspect calculators. -/
theorem calculate_orb_comm_bounded (a b : ℚ) :
    calculate_orb a b = calculate_orb b a ∧
    (|a - b| ≤ 360 →
      0 ≤ calculate_orb a b ∧ calculate_orb a b ≤ 180 ∧
      calculate_orb a b = specAngularSeparation a b ∧
      angularDiff a b = calculate_orb a b) := by
  constructor
  · unfold calculate_orb
    rw [abs_sub_comm]
  · intro h
    have hd0 : (0:ℚ) ≤ |a - b| := abs_nonneg _
    simp only [calculate_orb, specAngularSeparation, angularDiff]
    rcases eq_or_lt_of_le h with h360 | h360
    · rw [h360]
      norm_num [pymod]
    · have hpm : pymod |a - b| 360 = |a - b| :=
        pymod_eq_self (by norm_num) hd0 h360
      rw [hpm]
      by_cases h180 : |a - b| > 180
      · have hmin : min |a - b| (360 - |a - b|) = 360 - |a - b| :=
          min_eq_right (by linarith)
        rw [if_pos h180, hmin]
        refine ⟨by linarith, by linarith, rfl, rfl⟩
      · have hmin : min |a - b| (360 - |a - b|) = |a - b| :=
          min_eq_left (by push_neg at h180; linarith)
        rw [if_neg h180, hmin]
        push_neg at h180
        exact ⟨hd0, h180, rfl, rfl⟩

/-- Witness for `calculate_orb_comm_bounded` at angles 10 and 30. -/
theorem calculate_orb_comm_bounded_witness :
    calculate_orb 10 30 = calculate_orb 30 10 ∧
    (0 ≤ calculate_orb 10 30 ∧ calculate_orb 10 30 ≤ 180 ∧
      calculate_orb 10 30 = specAngularSeparation 10 30 ∧
      angularDiff 10 30 = calculate_orb 10 30) :=
  ⟨(calculate_orb_comm_bounded 10 30).1,
   (calculate_orb_comm_bounded 10 30).2 (by norm_num)⟩

/-! ### Claim C2 -/

/-- The spec's `AspectDefinition`:
`{name, exact_angle, tolerance, is_major}`. -/
structure SpecAspectDefn where
  name : String
  exact_angle : ℚ
  tolerance : ℚ
  major : Bool
deriving DecidableEq, Repr

/-- The spec's static aspect table, majors before minors, each block in its
fixed declaration order. -/
def specAspectTable : List SpecAspectDefn :=
  [⟨"Conjunction", 0, 8, true⟩,
   ⟨"Opposition", 180, 8, true⟩,
   ⟨"Trine", 120, 8, true⟩,
   ⟨"Square", 90, 8, true⟩,
   ⟨"Sextile", 60, 6, true⟩,
   ⟨"Quincunx", 150, 3, false⟩,
   ⟨"Semisextile", 30, 3, false⟩,
   ⟨"Quintile", 72, 2, false⟩,
   ⟨"Biquintile", 144, 2, false⟩,
   ⟨"Sesquiquadrate", 135, 3, false⟩]

/-- The spec's `classify(separation)`: iterate the table in order and return
the first definition whose tolerance admits the separation, reported as
`(name, orb, is_major)` with `orb = |separation - exact_angle|`. -/
def specFirstMatch (table : List SpecAspectDefn) (s : ℚ) :
    Option (String × ℚ × Bool) :=
  match table with
  | [] => none
  | d :: rest =>
    if |s - d.exact_angle| ≤ d.tolerance then
      some (d.name, |s - d.exact_angle|, d.major)
    else specFirstMatch rest s

lemma specFirstMatch_some {table : List SpecAspectDefn} {s : ℚ}
    {r : String × ℚ × Bool} (h : specFirstMatch table s = some r) :
    ∃ d ∈ table, r = (d.name, |s - d.exact_angle|, d.major) ∧
      |s - d.exact_angle| ≤ d.tolerance := by
  induction table with
  | nil => simp [specFirstMatch] at h
  | cons d rest ih =>
    rw [specFirstMatch] at h
    by_cases hc : |s - d.exact_angle| ≤ d.tolerance
    · rw [if_pos hc] at h
      exact ⟨d, List.mem_cons_self d rest, (Option.some_inj.mp h).symm, hc⟩
    · rw [if_neg hc] at h
      obtain ⟨d', hmem, hr, hle⟩ := ih h
      exact ⟨d', List.mem_cons_of_mem d hmem, hr, hle⟩

set_option maxHeartbeats 2000000 in
/-- Claim C2: `_determine_aspect` returns, for every separation in
`[0, 180]`, exactly the first matching definition of the spec's ordered
major-then-minor table (boundary equality admitted: 8.0 is a Conjunction,
8.01 matches nothing), and every match reports `orb = |s - exact_angle|`,
which is at most the matched definition's tolerance. -/
theorem determine_aspect_first_match (s : ℚ) (_h0 : 0 ≤ s) (_h1 : s ≤ 180) :
    (determine_aspect s).map (fun i => (i.aspect, i.orb, i.is_major)) =
      specFirstMatch specAspectTable s ∧
    determine_aspect 8 = some ⟨"Conjunction", 8, true, "#FF0000", "solid"⟩ ∧
    determine_aspect (801/100) = none ∧
    ∀ i, determine_aspect s = some i →
      ∃ d ∈ specAspectTable, d.name = i.aspect ∧ i.orb = |s - d.exact_angle| ∧
        i.orb ≤ d.tolerance := by
  have hmain : (determine_aspect s).map (fun i => (i.aspect, i.orb, i.is_major)) =
      specFirstMatch specAspectTable s := by
    simp only [determine_aspect, scanAspectTable, MAJOR_ASPECTS, MINOR_ASPECTS,
      specFirstMatch, specAspectTable]
    split_ifs <;> rfl
  refine ⟨hmain, ?_, ?_, ?_⟩
  · simp only [determine_aspect, scanAspectTable, MAJOR_ASPECTS, MINOR_ASPECTS]
    norm_num
  · simp only [determine_aspect, scanAspectTable, MAJOR_ASPECTS, MINOR_ASPECTS]
    norm_num [abs_le]
  · intro i hi
    have h2 : specFirstMatch specAspectTable s = some (i.aspect, i.orb, i.is_major) := by
      rw [← hmain, hi, Option.map_some']
    obtain ⟨d, hmem, hr, hle⟩ := specFirstMatch_some h2
    have hname : i.aspect = d.name := congrArg Prod.fst hr
    have horb : i.orb = |s - d.exact_angle| := congrArg (fun p => p.2.1) hr
    exact ⟨d, hmem, hname.symm, horb, horb ▸ hle⟩

/-- Witness for `determine_aspect_first_match` at separation 5. -/
theorem determine_aspect_first_match_witness :
    (determine_aspect 5).map (fun i => (i.aspect, i.orb, i.is_major)) =
      specFirstMatch specAspectTable 5 ∧
    determine_aspect 8 = some ⟨"Conjunction", 8, true, "#FF0000", "solid"⟩ ∧
    determine_aspect (801/100) = none ∧
    ∀ i, determine_aspect 5 = some i →
      ∃ d ∈ specAspectTable, d.name = i.aspect ∧ i.orb = |5 - d.exact_angle| ∧
        i.orb ≤ d.tolerance :=
  determine_aspect_first_match 5 (by norm_num) (by norm_num)

/-! ### Claim C3 -/

/-- Claim C3 is false for `calculate_synastry`: its `aspects` list is built
in loop iteration order and never sorted.  With person1 = {A: 0°} and
person2 = {X: 5°, Y: 2°} the list carries orbs [5, 2], which is not
ascending. -/
theorem synastry_aspects_not_sorted :
    ¬ List.Sorted (fun x y : SynAspect => x.orb ≤ y.orb)
      (synastry_aspects [("A", 0)] [("X", 5), ("Y", 2)]) := by
  norm_num [synastry_aspects, mkSynAspect, angularDiff, determine_aspect,
    scanAspectTable, MAJOR_ASPECTS, MINOR_ASPECTS, abs_le, List.Sorted,
    List.filterMap_cons, Option.map, abs_of_nonneg]

/-- Claim C3 (amended): the lists returned by `calculate_aspects` and
`calculate_transits` are sorted in ascending order of orb; the `aspects`
list built inside `calculate_synastry` is in iteration order and is not
sorted. -/
theorem aspect_lists_sorted_by_orb (planets natal transits : List (String × ℚ)) :
    List.Sorted orbLE (calculate_aspects planets) ∧
    List.Sorted orbLE' (calculate_transits natal transits) :=
  ⟨List.sorted_insertionSort orbLE (pairAspects planets),
   List.sorted_insertionSort orbLE' _⟩

/-! ### Claim C4 -/

/-- Claim C4: every composite point produced by `calculate_synastry` carries
the wrap-corrected circular midpoint of the two longitudes: when the naive
absolute difference exceeds 180° the smaller longitude is rotated by +360°
before averaging, the average is reduced mod 360, the result always lies in
`[0, 360)`, and longitudes 350° and 10° give composite 0°. -/
theorem composite_points_wrap_corrected_midpoint
    (person1_planets person2_planets : List (String × ℚ)) (r : CompositePoint)
    (hr : r ∈ composite_points person1_planets person2_planets) :
    r.composite_longitude =
      composite_longitude r.person1_longitude r.person2_longitude ∧
    0 ≤ r.composite_longitude ∧ r.composite_longitude < 360 ∧
    (|r.person1_longitude - r.person2_longitude| > 180 →
      r.composite_longitude =
        pymod ((min r.person1_longitude r.person2_longitude + 360 +
          max r.person1_longitude r.person2_longitude) / 2) 360) ∧
    (|r.person1_longitude - r.person2_longitude| ≤ 180 →
      r.composite_longitude =
        pymod ((r.person1_longitude + r.person2_longitude) / 2) 360) ∧
    composite_longitude 350 10 = 0 := by
  have hform : ∀ a1 a2 : ℚ, composite_longitude a1 a2 =
      if |a1 - a2| > 180 then
        pymod ((min a1 a2 + 360 + max a1 a2) / 2) 360
      else pymod ((a1 + a2) / 2) 360 := by
    intro a1 a2
    simp only [composite_longitude]
    by_cases h : |a1 - a2| > 180
    · rw [if_pos h, if_pos h]
      by_cases hlt : a1 < a2
      · rw [if_pos hlt, min_eq_left hlt.le, max_eq_right hlt.le]
      · push_neg at hlt
        rw [if_neg (not_lt.mpr hlt), min_eq_right hlt, max_eq_left hlt]
        ring_nf
    · rw [if_neg h, if_neg h]
  obtain ⟨p1, hp1, hmk⟩ := List.mem_filterMap.mp hr
  obtain ⟨a2, ha2, heq⟩ := Option.map_eq_some'.mp hmk
  subst heq
  refine ⟨rfl, pymod_nonneg _ _ (by norm_num), pymod_lt _ _ (by norm_num),
    ?_, ?_, ?_⟩
  · intro h
    rw [show (⟨p1.1, p1.2, a2, composite_longitude p1.2 a2,
        longitude_to_sign (composite_longitude p1.2 a2)⟩ :
        CompositePoint).composite_longitude = composite_longitude p1.2 a2 from rfl,
      hform]
    simp only at h
    rw [if_pos h]
  · intro h
    rw [show (⟨p1.1, p1.2, a2, composite_longitude p1.2 a2,
        longitude_to_sign (composite_longitude p1.2 a2)⟩ :
        CompositePoint).composite_longitude = composite_longitude p1.2 a2 from rfl,
      hform]
    simp only at h
    rw [if_neg (not_lt.mpr h)]
  · norm_num [composite_longitude, pymod]

/-- Witness for `composite_points_wrap_corrected_midpoint`: the Sun pair
350° / 10°. -/
theorem composite_points_wrap_corrected_midpoint_witness :
    (⟨"Sun", 350, 10, composite_longitude 350 10,
      longitude_to_sign (composite_longitude 350 10)⟩ :
      CompositePoint).composite_longitude = composite_longitude 350 10 ∧
    0 ≤ (⟨"Sun", 350, 10, composite_longitude 350 10,
      longitude_to_sign (composite_longitude 350 10)⟩ :
      CompositePoint).composite_longitude ∧
    (⟨"Sun", 350, 10, composite_longitude 350 10,
      longitude_to_sign (composite_longitude 350 10)⟩ :
      CompositePoint).composite_longitude < 360 ∧
    (|(350:ℚ) - 10| > 180 →
      (⟨"Sun", 350, 10, composite_longitude 350 10,
        longitude_to_sign (composite_longitude 350 10)⟩ :
        CompositePoint).composite_longitude =
        pymod ((min (350:ℚ) 10 + 360 + max (350:ℚ) 10) / 2) 360) ∧
    (|(350:ℚ) - 10| ≤ 180 →
      (⟨"Sun", 350, 10, composite_longitude 350 10,
        longitude_to_sign (composite_longitude 350 10)⟩ :
        CompositePoint).composite_longitude =
        pymod (((350:ℚ) + 10) / 2) 360) ∧
    composite_longitude 350 10 = 0 :=
  composite_points_wrap_corrected_midpoint [("Sun", 350)] [("Sun", 10)] _
    (by simp [composite_points, List.lookup])

/-! ### Claims C5 and C6 -/

lemma aspectWeight_nonneg (a : SynAspect) : 0 ≤ aspectWeight a := by
  unfold aspectWeight
  split_ifs <;> norm_num

lemma aspectWeight_le_three (a : SynAspect) : aspectWeight a ≤ 3 := by
  unfold aspectWeight
  split_ifs <;> norm_num

lemma weightSum_nonneg (l : List SynAspect) : 0 ≤ (l.map aspectWeight).sum :=
  List.sum_nonneg (by
    intro x hx
    obtain ⟨a, _, rfl⟩ := List.mem_map.mp hx
    exact aspectWeight_nonneg a)

lemma weightSum_le (l : List SynAspect) :
    (l.map aspectWeight).sum ≤ 3 * (l.length : ℤ) := by
  induction l with
  | nil => simp
  | cons a rest ih =>
    have := aspectWeight_le_three a
    simp only [List.map_cons, List.sum_cons, List.length_cons]
    push_cast
    linarith

/-- The score of `_calculate_compatibility_score` in closed form: for a
non-empty list, the floor of the weight ratio scaled to 100 (the `int()`
truncation equals the floor since the ratio is non-negative), clamped. -/
lemma compatibility_score_eq (aspects : List SynAspect) :
    compatibility_score aspects =
      if aspects.length = 0 then 0
      else min 100 (max 0
        ⌊(((aspects.map aspectWeight).sum : ℚ) / (3 * (aspects.length : ℚ))) * 100⌋) := by
  simp only [compatibility_score]
  by_cases h : aspects.length = 0
  · rw [if_pos h]
    rw [List.length_eq_zero] at h
    subst h
    simp [pyInt]
  · rw [if_neg h]
    have hlen : (0:ℤ) < (aspects.length : ℤ) := by
      exact_mod_cast Nat.pos_of_ne_zero h
    rw [if_pos (by linarith : (0:ℤ) < (aspects.length : ℤ) * 3)]
    have hs := weightSum_nonneg aspects
    have hlenq : (0:ℚ) < (aspects.length : ℚ) := by exact_mod_cast hlen
    have harg : (0:ℚ) ≤
        ((aspects.map aspectWeight).sum : ℚ) / (((aspects.length : ℤ) * 3 : ℤ) : ℚ) * 100 := by
      apply mul_nonneg _ (by norm_num)
      apply div_nonneg (by exact_mod_cast hs)
      push_cast
      linarith
    rw [pyInt, if_pos harg]
    have hcast : (((aspects.length : ℤ) * 3 : ℤ) : ℚ) = 3 * (aspects.length : ℚ) := by
      push_cast
      ring
    rw [hcast]

/-- The spec/claim scoring with round-to-nearest in place of the source's
`int()` truncation (modelled from the claim's words, for comparison). -/
def specCompatScoreRounded (aspects : List SynAspect) : ℤ :=
  if aspects.length = 0 then 0
  else min 100 (max 0
    (round ((((aspects.map aspectWeight).sum : ℚ) / (3 * (aspects.length : ℚ))) * 100)))

/-- Claim C5, as stated, is false: the source truncates the scaled ratio
with `int()` rather than rounding it.  A major Trine plus a major Square
weigh 4 of a maximum 6, `4/6*100 = 66.67`; the source returns 66 while the
claimed rounding gives 67. -/
theorem compatibility_score_truncates_not_rounds :
    compatibility_score
      [⟨"A", "B", "Trine", 0, true, "#0000FF", "solid"⟩,
       ⟨"A", "C", "Square", 0, true, "#FF0000", "solid"⟩] = 66 ∧
    specCompatScoreRounded
      [⟨"A", "B", "Trine", 0, true, "#0000FF", "solid"⟩,
       ⟨"A", "C", "Square", 0, true, "#FF0000", "solid"⟩] = 67 := by
  constructor
  · simp [compatibility_score, aspectWeight, pyInt]
    norm_num
  · simp [specCompatScoreRounded, aspectWeight]
    norm_num [round_eq]

/-- Claim C5 (amended): `_calculate_compatibility_score` weights each aspect
(major Trine/Sextile 3, major Conjunction 2, major Square/Opposition 1, any
minor 1), divides the weight sum by `3 × count(aspects)`, scales to 0–100,
truncates toward zero (equivalently floors, the ratio being non-negative),
and clamps into `[0, 100]`; the empty list yields 0 without division. -/
theorem compatibility_score_weighted_truncated_clamped (aspects : List SynAspect) :
    compatibility_score aspects =
      (if aspects.length = 0 then 0
       else min 100 (max 0
         ⌊(((aspects.map aspectWeight).sum : ℚ) / (3 * (aspects.length : ℚ))) * 100⌋)) ∧
    compatibility_score [] = 0 ∧
    0 ≤ compatibility_score aspects ∧ compatibility_score aspects ≤ 100 := by
  refine ⟨compatibility_score_eq aspects, by simp [compatibility_score], ?_, ?_⟩
  · simp only [compatibility_score]
    exact le_min (by norm_num) (le_max_left 0 _)
  · simp only [compatibility_score]
    exact min_le_left _ _

/-- Claim C6: appending major Trine or Sextile aspects never decreases the
compatibility score. -/
theorem compatibility_score_monotone_in_harmonious (aspects extra : List SynAspect)
    (h : ∀ a ∈ extra, a.is_major = true ∧ (a.aspect = "Trine" ∨ a.aspect = "Sextile")) :
    compatibility_score aspects ≤ compatibility_score (aspects ++ extra) := by
  have hw3 : ∀ a ∈ extra, aspectWeight a = 3 := by
    intro a ha
    obtain ⟨hm, hts⟩ := h a ha
    rcases hts with hts | hts <;> simp [aspectWeight, hm, hts]
  have hsum : (extra.map aspectWeight).sum = 3 * (extra.length : ℤ) := by
    rw [List.map_congr_left hw3]
    simp [mul_comm]
  rw [compatibility_score_eq, compatibility_score_eq]
  simp only [List.length_append, List.map_append, List.sum_append, hsum]
  by_cases hn : aspects.length = 0
  · rw [if_pos hn]
    split_ifs with h2
    · exact le_refl 0
    · exact le_min (by norm_num) (le_max_left 0 _)
  · have hn0 : 0 < aspects.length := Nat.pos_of_ne_zero hn
    rw [if_neg hn, if_neg (by omega : ¬ (aspects.length + extra.length = 0))]
    refine min_le_min (le_refl _) (max_le_max (le_refl _) ?_)
    apply Int.floor_le_floor
    have hs3 : ((aspects.map aspectWeight).sum : ℚ) ≤ 3 * (aspects.length : ℚ) := by
      exact_mod_cast weightSum_le aspects
    have hs0 : (0:ℚ) ≤ ((aspects.map aspectWeight).sum : ℚ) := by
      exact_mod_cast weightSum_nonneg aspects
    have hnq : (0:ℚ) < (aspects.length : ℚ) := by exact_mod_cast hn0
    have hkq : (0:ℚ) ≤ (extra.length : ℚ) := by positivity
    rw [div_mul_eq_mul_div, div_mul_eq_mul_div,
      div_le_div_iff₀ (by linarith) (by push_cast; linarith)]
    push_cast at hs3 hs0 ⊢
    nlinarith [mul_nonneg (sub_nonneg.mpr hs3) hkq]

/-- Witness for `compatibility_score_monotone_in_harmonious`: starting from
a lone major Square, appending a major Trine. -/
theorem compatibility_score_monotone_in_harmonious_witness :
    compatibility_score [⟨"A", "C", "Square", 0, true, "#FF0000", "solid"⟩] ≤
    compatibility_score ([⟨"A", "C", "Square", 0, true, "#FF0000", "solid"⟩] ++
      [⟨"A", "B", "Trine", 0, true, "#0000FF", "solid"⟩]) :=
  compatibility_score_monotone_in_harmonious _ _ (by
    intro a ha
    rw [List.mem_singleton] at ha
    subst ha
    exact ⟨rfl, Or.inl rfl⟩)

/-! ### Claim C7 -/

/-- Claim C7: both symbolic-time derivations follow
`derived = (natal + rate × elapsed) mod 360`.  `calculate_progressions`
advances only the Moon, at exactly 1° per whole elapsed day (elapsed days
may be negative), and returns every other body's natal longitude unchanged;
`calculate_primary_directions` advances every body uniformly by
`elapsed_days / 365.25` degrees, so natal 350° after 20 elapsed years
(7305 days) is directed to 10°. -/
theorem progressions_directions_rate_rule
    (natalP natalD : List (String × ℚ)) (daysP daysD : ℤ)
    (p : Progression) (d : Direction)
    (hp : p ∈ calculate_progressions natalP daysP)
    (hd : d ∈ calculate_primary_directions natalD daysD) :
    ((p.planet = "Moon" →
        p.progressed_longitude = pymod (p.natal_longitude + (daysP : ℚ)) 360) ∧
      (p.planet ≠ "Moon" → p.progressed_longitude = p.natal_longitude) ∧
      (0 ≤ p.natal_longitude → p.natal_longitude < 360 →
        p.progressed_longitude =
          pymod (p.natal_longitude +
            (if p.planet = "Moon" then 1 else 0) * (daysP : ℚ)) 360)) ∧
    d.directed_longitude =
      pymod (d.natal_longitude + (daysD : ℚ) / (1461 / 4)) 360 ∧
    calculate_primary_directions [("Mars", 350)] 7305 =
      [⟨"Mars", 350, 10, "Aries"⟩] := by
  obtain ⟨q, hq, rfl⟩ := List.mem_map.mp hp
  obtain ⟨q2, hq2, rfl⟩ := List.mem_map.mp hd
  refine ⟨⟨?_, ?_, ?_⟩, rfl, ?_⟩
  · intro hmoon
    simp only at hmoon ⊢
    rw [if_pos hmoon]
  · intro hmoon
    simp only at hmoon ⊢
    rw [if_neg hmoon]
  · intro hlo hhi
    simp only at hlo hhi ⊢
    by_cases hmoon : q.1 = "Moon"
    · rw [if_pos hmoon, if_pos hmoon, one_mul]
    · rw [if_neg hmoon, if_neg hmoon, zero_mul, add_zero,
        pymod_eq_self (by norm_num) hlo hhi]
  · have h20 : ((7305 : ℤ) : ℚ) / (1461 / 4) = 20 := by norm_num
    simp only [calculate_primary_directions, List.map_cons, List.map_nil, h20]
    norm_num [pymod, longitude_to_sign, signsEn]

/-- Witness for `progressions_directions_rate_rule`: the Moon natal 100°
progressed 40 days, and Mars natal 350° directed 7305 days (20 years). -/
theorem progressions_directions_rate_rule_witness :
    (((⟨"Moon", 100, 140, "Leo", 40⟩ : Progression).planet = "Moon" →
        (⟨"Moon", 100, 140, "Leo", 40⟩ : Progression).progressed_longitude =
          pymod ((⟨"Moon", 100, 140, "Leo", 40⟩ : Progression).natal_longitude +
            ((40 : ℤ) : ℚ)) 360) ∧
      ((⟨"Moon", 100, 140, "Leo", 40⟩ : Progression).planet ≠ "Moon" →
        (⟨"Moon", 100, 140, "Leo", 40⟩ : Progression).progressed_longitude =
          (⟨"Moon", 100, 140, "Leo", 40⟩ : Progression).natal_longitude) ∧
      (0 ≤ (⟨"Moon", 100, 140, "Leo", 40⟩ : Progression).natal_longitude →
        (⟨"Moon", 100, 140, "Leo", 40⟩ : Progression).natal_longitude < 360 →
        (⟨"Moon", 100, 140, "Leo", 40⟩ : Progression).progressed_longitude =
          pymod ((⟨"Moon", 100, 140, "Leo", 40⟩ : Progression).natal_longitude +
            (if (⟨"Moon", 100, 140, "Leo", 40⟩ : Progression).planet = "Moon"
             then 1 else 0) * ((40 : ℤ) : ℚ)) 360)) ∧
    (⟨"Mars", 350, 10, "Aries"⟩ : Direction).directed_longitude =
      pymod ((⟨"Mars", 350, 10, "Aries"⟩ : Direction).natal_longitude +
        ((7305 : ℤ) : ℚ) / (1461 / 4)) 360 ∧
    calculate_primary_directions [("Mars", 350)] 7305 =
      [⟨"Mars", 350, 10, "Aries"⟩] :=
  progressions_directions_rate_rule [("Moon", 100)] [("Mars", 350)] 40 7305
    ⟨"Moon", 100, 140, "Leo", 40⟩ ⟨"Mars", 350, 10, "Aries"⟩
    (by
      norm_num [calculate_progressions, pymod, longitude_to_sign, signsEn]
      decide)
    (by
      have h20 : ((7305 : ℤ) : ℚ) / (1461 / 4) = 20 := by norm_num
      norm_num [calculate_primary_directions, h20, pymod, longitude_to_sign,
        signsEn])

/-! ### Claim C8 -/

/-- The spec's dignity-table row: exaltation sign, fall sign, and the
rulership sign(s) as a set (list) of one or two signs. -/
structure SpecDignity where
  exaltation : String
  fall : String
  rulership : List String
deriving DecidableEq, Repr

/-- The spec's dignity lookup table. -/
def specDignities : List (String × SpecDignity) :=
  [("Sun", ⟨"Aries", "Libra", ["Leo"]⟩),
   ("Moon", ⟨"Taurus", "Scorpio", ["Cancer"]⟩),
   ("Mercury", ⟨"Virgo", "Pisces", ["Gemini", "Virgo"]⟩),
   ("Venus", ⟨"Pisces", "Virgo", ["Taurus", "Libra"]⟩),
   ("Mars", ⟨"Capricorn", "Cancer", ["Aries", "Scorpio"]⟩),
   ("Jupiter", ⟨"Cancer", "Capricorn", ["Sagittarius", "Pisces"]⟩),
   ("Saturn", ⟨"Libra", "Aries", ["Capricorn", "Aquarius"]⟩)]

/-- The spec's first-matching dignity rule: exaltation +20, else fall −20,
else rulership +15, else no change. -/
def specDignityDelta (planet sign : String) : ℤ :=
  match specDignities.lookup planet with
  | none => 0
  | some d =>
    if sign = d.exaltation then 20
    else if sign = d.fall then -20
    else if sign ∈ d.rulership then 15
    else 0

/-- The dignity label recorded by the spec's first-matching rule. -/
def specDignityLabel (planet sign : String) : String :=
  match specDignities.lookup planet with
  | none => "neutral"
  | some d =>
    if sign = d.exaltation then "exaltation"
    else if sign = d.fall then "fall"
    else if sign ∈ d.rulership then "rulership"
    else "neutral"

/-- The contributing-factor label recorded by the dignity rule. -/
def specDignityFactors (planet sign : String) : List String :=
  match specDignities.lookup planet with
  | none => []
  | some d =>
    if sign = d.exaltation then ["Экзальтация"]
    else if sign = d.fall then ["Падение"]
    else if sign ∈ d.rulership then ["Управление"]
    else []

/-- The spec's house-class modifier: angular +10, succedent +5, cadent −5. -/
def specHouseDelta (house : ℤ) : ℤ :=
  if house = 1 ∨ house = 4 ∨ house = 7 ∨ house = 10 then 10
  else if house = 2 ∨ house = 5 ∨ house = 8 ∨ house = 11 then 5
  else if house = 3 ∨ house = 6 ∨ house = 9 ∨ house = 12 then -5
  else 0

/-- The contributing-factor label recorded by the house rule. -/
def specHouseFactors (house : ℤ) : List String :=
  if house = 1 ∨ house = 4 ∨ house = 7 ∨ house = 10 then ["Угловой дом"]
  else if house = 2 ∨ house = 5 ∨ house = 8 ∨ house = 11 then ["Успешный дом"]
  else if house = 3 ∨ house = 6 ∨ house = 9 ∨ house = 12 then ["Падающий дом"]
  else []

/-- The spec's per-aspect delta: +5 per major Trine/Sextile, −3 per major
Square/Opposition, 0 otherwise (minors and Conjunction neutral). -/
def specAspectDelta (a : SynAspect) : ℤ :=
  if a.is_major ∧ (a.aspect = "Trine" ∨ a.aspect = "Sextile") then 5
  else if a.is_major ∧ (a.aspect = "Square" ∨ a.aspect = "Opposition") then -3
  else 0

/-- The contributing-factor labels recorded by the aspect rule. -/
def specAspectFactors (a : SynAspect) : List String :=
  if a.is_major ∧ (a.aspect = "Trine" ∨ a.aspect = "Sextile") then
    ["Гармоничный аспект: " ++ a.aspect]
  else if a.is_major ∧ (a.aspect = "Square" ∨ a.aspect = "Opposition") then
    ["Напряжённый аспект: " ++ a.aspect]
  else []

/-- On the twelve zodiac-sign names, the Python substring test
`sign in "Leo"` coincides with equality. -/
lemma signInRulership_leo (sign : String) (hsign : sign ∈ signsEn) :
    (signInRulership sign (.single "Leo") = true) = (sign = "Leo") := by
  rw [eq_iff_iff]
  fin_cases hsign <;> decide

/-- On the twelve zodiac-sign names, the Python substring test
`sign in "Cancer"` coincides with equality. -/
lemma signInRulership_cancer (sign : String) (hsign : sign ∈ signsEn) :
    (signInRulership sign (.single "Cancer") = true) = (sign = "Cancer") := by
  rw [eq_iff_iff]
  fin_cases hsign <;> decide

/-- The dignity block of `calculate_planetary_strength` matches the spec's
first-matching dignity rule on valid sign names. -/
lemma dignityStep_eq (planet sign : String) (hsign : sign ∈ signsEn) :
    dignityStep planet sign =
      ⟨specDignityLabel planet sign, 50 + specDignityDelta planet sign,
       specDignityFactors planet sign⟩ := by
  by_cases h1 : planet = "Sun"
  · subst h1
    simp only [dignityStep, specDignityLabel, specDignityDelta, specDignityFactors]
    rw [show dignities.lookup "Sun" = some ⟨"Aries", "Libra", .single "Leo"⟩ from rfl,
      show specDignities.lookup "Sun" = some ⟨"Aries", "Libra", ["Leo"]⟩ from rfl]
    simp only [signInRulership_leo sign hsign, List.mem_singleton]
    split_ifs <;> rfl
  by_cases h2 : planet = "Moon"
  · subst h2
    simp only [dignityStep, specDignityLabel, specDignityDelta, specDignityFactors]
    rw [show dignities.lookup "Moon" = some ⟨"Taurus", "Scorpio", .single "Cancer"⟩ from rfl,
      show specDignities.lookup "Moon" = some ⟨"Taurus", "Scorpio", ["Cancer"]⟩ from rfl]
    simp only [signInRulership_cancer sign hsign, List.mem_singleton]
    split_ifs <;> rfl
  by_cases h3 : planet = "Mercury"
  · subst h3
    simp only [dignityStep, specDignityLabel, specDignityDelta, specDignityFactors]
    rw [show dignities.lookup "Mercury" = some ⟨"Virgo", "Pisces", .dual ["Gemini", "Virgo"]⟩ from rfl,
      show specDignities.lookup "Mercury" = some ⟨"Virgo", "Pisces", ["Gemini", "Virgo"]⟩ from rfl]
    simp only [signInRulership, List.elem_eq_mem, List.mem_cons, List.mem_singleton,
      Bool.decide_or, Bool.or_eq_true, decide_eq_true_eq]
    split_ifs <;> rfl
  by_cases h4 : planet = "Venus"
  · subst h4
    simp only [dignityStep, specDignityLabel, specDignityDelta, specDignityFactors]
    rw [show dignities.lookup "Venus" = some ⟨"Pisces", "Virgo", .dual ["Taurus", "Libra"]⟩ from rfl,
      show specDignities.lookup "Venus" = some ⟨"Pisces", "Virgo", ["Taurus", "Libra"]⟩ from rfl]
    simp only [signInRulership, List.elem_eq_mem, List.mem_cons, List.mem_singleton,
      Bool.decide_or, Bool.or_eq_true, decide_eq_true_eq]
    split_ifs <;> rfl
  by_cases h5 : planet = "Mars"
  · subst h5
    simp only [dignityStep, specDignityLabel, specDignityDelta, specDignityFactors]
    rw [show dignities.lookup "Mars" = some ⟨"Capricorn", "Cancer", .dual ["Aries", "Scorpio"]⟩ from rfl,
      show specDignities.lookup "Mars" = some ⟨"Capricorn", "Cancer", ["Aries", "Scorpio"]⟩ from rfl]
    simp only [signInRulership, List.elem_eq_mem, List.mem_cons, List.mem_singleton,
      Bool.decide_or, Bool.or_eq_true, decide_eq_true_eq]
    split_ifs <;> rfl
  by_cases h6 : planet = "Jupiter"
  · subst h6
    simp only [dignityStep, specDignityLabel, specDignityDelta, specDignityFactors]
    rw [show dignities.lookup "Jupiter" = some ⟨"Cancer", "Capricorn", .dual ["Sagittarius", "Pisces"]⟩ from rfl,
      show specDignities.lookup "Jupiter" = some ⟨"Cancer", "Capricorn", ["Sagittarius", "Pisces"]⟩ from rfl]
    simp only [signInRulership, List.elem_eq_mem, List.mem_cons, List.mem_singleton,
      Bool.decide_or, Bool.or_eq_true, decide_eq_true_eq]
    split_ifs <;> rfl
  by_cases h7 : planet = "Saturn"
  · subst h7
    simp only [dignityStep, specDignityLabel, specDignityDelta, specDignityFactors]
    rw [show dignities.lookup "Saturn" = some ⟨"Libra", "Aries", .dual ["Capricorn", "Aquarius"]⟩ from rfl,
      show specDignities.lookup "Saturn" = some ⟨"Libra", "Aries", ["Capricorn", "Aquarius"]⟩ from rfl]
    simp only [signInRulership, List.elem_eq_mem, List.mem_cons, List.mem_singleton,
      Bool.decide_or, Bool.or_eq_true, decide_eq_true_eq]
    split_ifs <;> rfl
  · have e1 : (planet == "Sun") = false := by simp [h1]
    have e2 : (planet == "Moon") = false := by simp [h2]
    have e3 : (planet == "Mercury") = false := by simp [h3]
    have e4 : (planet == "Venus") = false := by simp [h4]
    have e5 : (planet == "Mars") = false := by simp [h5]
    have e6 : (planet == "Jupiter") = false := by simp [h6]
    have e7 : (planet == "Saturn") = false := by simp [h7]
    simp only [dignityStep, specDignityLabel, specDignityDelta, specDignityFactors,
      dignities, specDignities, List.lookup, e1, e2, e3, e4, e5, e6, e7]
    norm_num

/-- The house block of `calculate_planetary_strength` adds the spec's
house-class delta and label. -/
lemma houseStep_eq (house : ℤ) (st : Strength) :
    houseStep house st =
      ⟨st.dignity, st.score + specHouseDelta house,
       st.factors ++ specHouseFactors house⟩ := by
  simp only [houseStep, specHouseDelta, specHouseFactors]
  split_ifs <;> simp [sub_eq_add_neg]

/-- The aspect loop of `calculate_planetary_strength` adds the spec's
per-aspect deltas and labels. -/
lemma foldl_strengthAspectStep (aspects : List SynAspect) (st : Strength) :
    aspects.foldl strengthAspectStep st =
      ⟨st.dignity, st.score + (aspects.map specAspectDelta).sum,
       st.factors ++ aspects.flatMap specAspectFactors⟩ := by
  induction aspects generalizing st with
  | nil => simp
  | cons a rest ih =>
    rw [List.foldl_cons, ih]
    simp only [List.map_cons, List.sum_cons, List.flatMap_cons]
    cases hb : a.is_major with
    | false =>
      simp [strengthAspectStep, specAspectDelta, specAspectFactors, hb]
    | true =>
      by_cases hts : a.aspect = "Trine" ∨ a.aspect = "Sextile"
      · simp [strengthAspectStep, specAspectDelta, specAspectFactors, hb, hts,
          add_assoc]
      · by_cases hso : a.aspect = "Square" ∨ a.aspect = "Opposition"
        · simp only [strengthAspectStep, specAspectDelta, specAspectFactors,
            hb, hts, hso]
          simp [add_assoc, sub_eq_add_neg]
        · simp [strengthAspectStep, specAspectDelta, specAspectFactors, hb,
            hts, hso]

/-- Claim C8: for any of the twelve sign names, the strength score is the
clamped sum of baseline 50, the first-matching dignity delta (+20
exaltation, else −20 fall, else +15 rulership where rulership may be one or
two signs), the house-class delta (+10 angular, +5 succedent, −5 cadent),
and +5 per major Trine/Sextile with −3 per major Square/Opposition (minors
and Conjunction neutral); the contributing-factor labels record each fired
rule in order, and the label of the applied dignity rule is reported. -/
theorem planetary_strength_spec (planet sign : String) (house : ℤ)
    (aspects : List SynAspect) (hsign : sign ∈ signsEn) :
    (calculate_planetary_strength planet sign house aspects).score =
      max 0 (min 100 (50 + specDignityDelta planet sign + specHouseDelta house +
        (aspects.map specAspectDelta).sum)) ∧
    (calculate_planetary_strength planet sign house aspects).factors =
      specDignityFactors planet sign ++ specHouseFactors house ++
        aspects.flatMap specAspectFactors ∧
    (calculate_planetary_strength planet sign house aspects).dignity =
      specDignityLabel planet sign := by
  simp only [calculate_planetary_strength, dignityStep_eq planet sign hsign,
    houseStep_eq, foldl_strengthAspectStep]
  refine ⟨?_, ?_, ?_⟩ <;> simp [add_assoc, List.append_assoc]

/-- Witness for `planetary_strength_spec`: the Sun exalted in Aries, in
house 1, with one major Trine (score 85). -/
theorem planetary_strength_spec_witness :
    (calculate_planetary_strength "Sun" "Aries" 1
      [⟨"A", "B", "Trine", 0, true, "#0000FF", "solid"⟩]).score =
      max 0 (min 100 (50 + specDignityDelta "Sun" "Aries" + specHouseDelta 1 +
        ([⟨"A", "B", "Trine", 0, true, "#0000FF", "solid"⟩].map
          specAspectDelta).sum)) ∧
    (calculate_planetary_strength "Sun" "Aries" 1
      [⟨"A", "B", "Trine", 0, true, "#0000FF", "solid"⟩]).factors =
      specDignityFactors "Sun" "Aries" ++ specHouseFactors 1 ++
        [⟨"A", "B", "Trine", 0, true, "#0000FF", "solid"⟩].flatMap
          specAspectFactors ∧
    (calculate_planetary_strength "Sun" "Aries" 1
      [⟨"A", "B", "Trine", 0, true, "#0000FF", "solid"⟩]).dignity =
      specDignityLabel "Sun" "Aries" :=
  planetary_strength_spec "Sun" "Aries" 1
    [⟨"A", "B", "Trine", 0, true, "#0000FF", "solid"⟩] (by decide)

/-! ### Claim C9 -/

/-- Claim C9: `calculate_arabic_parts` emits Part of Fortune
`(asc + moon − sun) mod 360` and Part of Spirit `(asc + sun − moon) mod 360`
exactly when both Sun and Moon are present, and Part of Marriage
`(asc + venus − saturn) mod 360` exactly when both Venus and Saturn are
present; a part whose bodies are missing is silently omitted, and the
function is total (no input combination fails). -/
theorem arabic_parts_present_or_omitted (natal_planets : List (String × ℚ))
    (ascendant : ℚ) :
    (∀ s m, natal_planets.lookup "Sun" = some s →
      natal_planets.lookup "Moon" = some m →
      (calculate_arabic_parts natal_planets ascendant).lookup "Part_of_Fortune" =
        some ⟨pymod (ascendant + (m - s)) 360,
          longitude_to_sign (pymod (ascendant + (m - s)) 360),
          "Asc + (Moon - Sun)"⟩ ∧
      (calculate_arabic_parts natal_planets ascendant).lookup "Part_of_Spirit" =
        some ⟨pymod (ascendant + (s - m)) 360,
          longitude_to_sign (pymod (ascendant + (s - m)) 360),
          "Asc + (Sun - Moon)"⟩) ∧
    (natal_planets.lookup "Sun" = none ∨ natal_planets.lookup "Moon" = none →
      (calculate_arabic_parts natal_planets ascendant).lookup "Part_of_Fortune" =
        none ∧
      (calculate_arabic_parts natal_planets ascendant).lookup "Part_of_Spirit" =
        none) ∧
    (∀ v sa, natal_planets.lookup "Venus" = some v →
      natal_planets.lookup "Saturn" = some sa →
      (calculate_arabic_parts natal_planets ascendant).lookup "Part_of_Marriage" =
        some ⟨pymod (ascendant + (v - sa)) 360,
          longitude_to_sign (pymod (ascendant + (v - sa)) 360),
          "Asc + (Venus - Saturn)"⟩) ∧
    (natal_planets.lookup "Venus" = none ∨ natal_planets.lookup "Saturn" = none →
      (calculate_arabic_parts natal_planets ascendant).lookup "Part_of_Marriage" =
        none) := by
  refine ⟨?_, ?_, ?_, ?_⟩
  · intro s m hs hm
    rcases hv : natal_planets.lookup "Venus" with _ | v <;>
      rcases hsat : natal_planets.lookup "Saturn" with _ | sa <;>
        simp [calculate_arabic_parts, hs, hm, hv, hsat, List.lookup]
  · intro h
    rcases hv : natal_planets.lookup "Venus" with _ | v <;>
      rcases hsat : natal_planets.lookup "Saturn" with _ | sa <;>
        rcases h with h | h <;>
          simp [calculate_arabic_parts, h, hv, hsat, List.lookup]
  · intro v sa hv hsat
    rcases hs : natal_planets.lookup "Sun" with _ | s <;>
      rcases hm : natal_planets.lookup "Moon" with _ | m <;>
        simp [calculate_arabic_parts, hs, hm, hv, hsat, List.lookup]
  · intro h
    rcases hs : natal_planets.lookup "Sun" with _ | s <;>
      rcases hm : natal_planets.lookup "Moon" with _ | m <;>
        rcases h with h | h <;>
          simp [calculate_arabic_parts, h, hs, hm, List.lookup]

/-- Witness for `arabic_parts_present_or_omitted`: all four bodies present. -/
theorem arabic_parts_present_or_omitted_witness :
    (∀ s m, ([("Sun", (100:ℚ)), ("Moon", 200), ("Venus", 50),
        ("Saturn", 80)]).lookup "Sun" = some s →
      ([("Sun", (100:ℚ)), ("Moon", 200), ("Venus", 50),
        ("Saturn", 80)]).lookup "Moon" = some m →
      (calculate_arabic_parts [("Sun", 100), ("Moon", 200), ("Venus", 50),
        ("Saturn", 80)] 10).lookup "Part_of_Fortune" =
        some ⟨pymod (10 + (m - s)) 360,
          longitude_to_sign (pymod (10 + (m - s)) 360), "Asc + (Moon - Sun)"⟩ ∧
      (calculate_arabic_parts [("Sun", 100), ("Moon", 200), ("Venus", 50),
        ("Saturn", 80)] 10).lookup "Part_of_Spirit" =
        some ⟨pymod (10 + (s - m)) 360,
          longitude_to_sign (pymod (10 + (s - m)) 360), "Asc + (Sun - Moon)"⟩) ∧
    (([("Sun", (100:ℚ)), ("Moon", 200), ("Venus", 50),
        ("Saturn", 80)]).lookup "Sun" = none ∨
      ([("Sun", (100:ℚ)), ("Moon", 200), ("Venus", 50),
        ("Saturn", 80)]).lookup "Moon" = none →
      (calculate_arabic_parts [("Sun", 100), ("Moon", 200), ("Venus", 50),
        ("Saturn", 80)] 10).lookup "Part_of_Fortune" = none ∧
      (calculate_arabic_parts [("Sun", 100), ("Moon", 200), ("Venus", 50),
        ("Saturn", 80)] 10).lookup "Part_of_Spirit" = none) ∧
    (∀ v sa, ([("Sun", (100:ℚ)), ("Moon", 200), ("Venus", 50),
        ("Saturn", 80)]).lookup "Venus" = some v →
      ([("Sun", (100:ℚ)), ("Moon", 200), ("Venus", 50),
        ("Saturn", 80)]).lookup "Saturn" = some sa →
      (calculate_arabic_parts [("Sun", 100), ("Moon", 200), ("Venus", 50),
        ("Saturn", 80)] 10).lookup "Part_of_Marriage" =
        some ⟨pymod (10 + (v - sa)) 360,
          longitude_to_sign (pymod (10 + (v - sa)) 360),
          "Asc + (Venus - Saturn)"⟩) ∧
    (([("Sun", (100:ℚ)), ("Moon", 200), ("Venus", 50),
        ("Saturn", 80)]).lookup "Venus" = none ∨
      ([("Sun", (100:ℚ)), ("Moon", 200), ("Venus", 50),
        ("Saturn", 80)]).lookup "Saturn" = none →
      (calculate_arabic_parts [("Sun", 100), ("Moon", 200), ("Venus", 50),
        ("Saturn", 80)] 10).lookup "Part_of_Marriage" = none) :=
  arabic_parts_present_or_omitted
    [("Sun", 100), ("Moon", 200), ("Venus", 50), ("Saturn", 80)] 10

/-! ### Claim C10 -/

lemma getD_mem_of_lt {l : List String} {i : ℕ} (h : i < l.length)
    (d : String) : l.getD i d ∈ l := by
  rw [List.getD_eq_getElem l d h]
  exact List.getElem_mem h

/-- Claim C10: both longitude-to-sign conversions are total over all
rational longitudes, negative values and values at or above 360 included:
`_longitude_to_sign` reduces its index modulo 12 and always returns one of
the twelve English sign names, and `degrees_to_sign_and_degrees` normalizes
the longitude modulo 360 and always returns one of the twelve sign names
together with an in-sign degree in `[0, 30)`; hence no derived longitude
can cause an out-of-range sign lookup. -/
theorem sign_conversions_total (x : ℚ) :
    longitude_to_sign x ∈ signsEn ∧
    (degrees_to_sign_and_degrees x).1 ∈ ZODIAC_SIGNS ∧
    0 ≤ (degrees_to_sign_and_degrees x).2 ∧
    (degrees_to_sign_and_degrees x).2 < 30 := by
  refine ⟨?_, ?_, ?_, ?_⟩
  · simp only [longitude_to_sign]
    apply getD_mem_of_lt
    have h0 : 0 ≤ ⌊x / 30⌋ % 12 := Int.emod_nonneg _ (by norm_num)
    have h12 : ⌊x / 30⌋ % 12 < 12 := Int.emod_lt_of_pos _ (by norm_num)
    have hlen : signsEn.length = 12 := by rfl
    omega
  · simp only [degrees_to_sign_and_degrees]
    apply getD_mem_of_lt
    have hlo : 0 ≤ pymod x 360 := pymod_nonneg x 360 (by norm_num)
    have hhi : pymod x 360 < 360 := pymod_lt x 360 (by norm_num)
    have h0 : 0 ≤ ⌊pymod x 360 / ZODIAC_DEGREES⌋ := by
      apply Int.floor_nonneg.mpr
      unfold ZODIAC_DEGREES
      positivity
    have h12 : ⌊pymod x 360 / ZODIAC_DEGREES⌋ < 12 := by
      apply Int.floor_lt.mpr
      unfold ZODIAC_DEGREES
      rw [div_lt_iff₀ (by norm_num)]
      push_cast
      linarith
    have hlen : ZODIAC_SIGNS.length = 12 := by rfl
    omega
  · exact pymod_nonneg _ _ (by norm_num [ZODIAC_DEGREES])
  · have := pymod_lt (pymod x 360) ZODIAC_DEGREES (by norm_num [ZODIAC_DEGREES])
    simpa [degrees_to_sign_and_degrees, ZODIAC_DEGREES] using this

end EphemerisDecoder
